import Mathlib

/-!
Verification development for the blist playlist container library
(library crate: src/{lib,playlist,beatmap,utils,error}.rs plus
rust/src/validation.rs, and the legacy converter: converter/src/legacy.rs).

The Rust code is shallowly embedded:
* strings are Lean String values; Rust str::len is the UTF-8 byte length,
  modelled here as the character count, which agrees with the source on every
  branch outcome because every length test in the source is disjoined with a
  hex-digit check that fails on any non-ASCII string;
* Vec of u8 is List Nat; filesystem paths are an absolute flag plus the list
  of components, with the std::path semantics of parent, extension,
  is_relative spelled out below;
* Path::is_file, a filesystem query, is threaded through as an explicit
  predicate parameter fs telling which paths exist as files;
* serde_json::Value is the Json inductive; serde_json::Map is an ordered
  association list; chrono DateTime values are kept as opaque strings
  (chrono serializes a timestamp to a string and parses it back unchanged);
* the zip container is a list of named entries; the playlist.json entry
  holds the structured Json value (serde_json::to_writer followed by
  from_reader is the identity on the value it transports);
* fallible functions return Except; Result error payloads coming from the
  zip, serde_json and io libraries are collapsed to tags.
-/

/-- serde_json::Value. Numbers are modelled as integers; no claim depends on
numeric parsing. -/
inductive Json where
  | null : Json
  | bool (b : Bool) : Json
  | num (n : Int) : Json
  | str (s : String) : Json
  | arr (elems : List Json) : Json
  | obj (fields : List (String × Json)) : Json

/-- serde_json::Map of String to Value, in iteration order. -/
abbrev Jobj := List (String × Json)

/-- Key lookup in a JSON object (first match wins, as in serde maps which
hold each key once). -/
def jLookup : Jobj → String → Option Json
  | [], _ => none
  | (k, v) :: rest, key => if k == key then some v else jLookup rest key

/-- std::path::Path, as an absolute flag plus the list of components. -/
structure FsPath where
  absolute : Bool
  components : List String
deriving DecidableEq

/-- Path::is_relative. -/
def FsPath.isRelative (p : FsPath) : Bool := !p.absolute

/-- Path::file_name: the last component. (The std special case for paths
ending in a dot-dot component is not modelled; no such path occurs here.) -/
def FsPath.fileName (p : FsPath) : Option String := p.components.getLast?

/-- The extension of a file name: the part after the last dot, none when
there is no dot or when the only dot is the leading one of a hidden file,
exactly as std::path computes it from the file name. -/
def extOfFileName (s : String) : Option String :=
  match s.data.splitOn '.' with
  | [] => none
  | [_] => none
  | [[], _] => none
  | parts => (parts.getLast?).map (fun l => String.mk l)

/-- Path::extension. -/
def FsPath.extension (p : FsPath) : Option String :=
  match p.fileName with
  | none => none
  | some name => extOfFileName name

/-- Whether Path::parent returns Some. In std::path, the parent of a
relative path with one component is Some of the empty path; parent is None
only for the empty path and for a bare root. Hence: Some iff the component
list is nonempty. -/
def FsPath.parentIsSome (p : FsPath) : Bool := !p.components.isEmpty

/-- Path rendering (Path::to_str on the paths built by this code). -/
def FsPath.render (p : FsPath) : String :=
  (if p.absolute then "/" else "") ++ String.intercalate "/" p.components

/-- PathBuf::from on a string. -/
def FsPath.parse (s : String) : FsPath :=
  ⟨s.startsWith "/", (s.splitOn "/").filter (fun c => !(c == ""))⟩

/-- utils.rs PNG_MAGIC_NUMBER_LEN. -/
def PNG_MAGIC_NUMBER_LEN : Nat := 8

/-- utils.rs PNG_MAGIC_NUMBER. -/
def PNG_MAGIC_NUMBER : List Nat := [0x89, 0x50, 0x4E, 0x47, 0x0D, 0x0A, 0x1A, 0x0A]

/-- utils.rs JPG_MAGIC_NUMBER_LEN. -/
def JPG_MAGIC_NUMBER_LEN : Nat := 3

/-- utils.rs JPG_MAGIC_NUMBER. -/
def JPG_MAGIC_NUMBER : List Nat := [0xFF, 0xD8, 0xFF]

/-- utils.rs str_is_empty_or_has_newlines. -/
def str_is_empty_or_has_newlines (s : String) : Bool :=
  s.data.isEmpty || s.data.any (fun c => c == '\n' || c == '\r')

/-- char::is_ascii_hexdigit. -/
def isAsciiHexdigit (c : Char) : Bool :=
  (decide ('0' ≤ c) && decide (c ≤ '9')) ||
  (decide ('a' ≤ c) && decide (c ≤ 'f')) ||
  (decide ('A' ≤ c) && decide (c ≤ 'F'))

/-- utils.rs str_is_hex. -/
def str_is_hex (s : String) : Bool :=
  !(s.data.any (fun c => !(isAsciiHexdigit c)))

/-- utils.rs path_is_invalid. The fs parameter is the Path::is_file
filesystem query. The source is the disjunction
not is_file, or not is_relative, or extension is none, or parent is some. -/
def path_is_invalid (fs : FsPath → Bool) (p : FsPath) : Bool :=
  !(fs p) || !(p.isRelative) || (p.extension).isNone || p.parentIsSome

/-- playlist.rs SCHEMA. -/
def SCHEMA : String :=
  "https://raw.githubusercontent.com/raftario/blist/master/playlist.schema.json"

/-- beatmap.rs BeatmapType. -/
inductive BeatmapType where
  | key : BeatmapType
  | hash : BeatmapType
  | levelId : BeatmapType
deriving DecidableEq

/-- beatmap.rs BeatmapDifficulty. -/
structure BeatmapDifficulty where
  name : String
  characteristic : String
deriving DecidableEq

/-- beatmap.rs Beatmap. The date field keeps the chrono timestamp as an
opaque string token. -/
structure Beatmap where
  ty : BeatmapType
  date : Option String
  difficulties : List BeatmapDifficulty
  key : Option String
  hash : Option String
  level_id : Option String
  custom_data : Jobj

/-- playlist.rs PlaylistCoverType. -/
inductive PlaylistCoverType where
  | png : PlaylistCoverType
  | jpg : PlaylistCoverType
  | unknown : PlaylistCoverType
deriving DecidableEq

/-- playlist.rs PlaylistCover. -/
structure PlaylistCover where
  path : FsPath
  data : List Nat
  ty : PlaylistCoverType
deriving DecidableEq

/-- playlist.rs Playlist. The schema field of the source is a constant URL
(serialized from a default, never deserialized); being constant it is left
out of the model. -/
structure Playlist where
  title : String
  author : Option String
  description : Option String
  cover : Option PlaylistCover
  maps : List Beatmap
  custom_data : Jobj

/-- validation.rs BeatmapDifficultyError. -/
inductive BeatmapDifficultyError where
  | invalidField (field : String) (value : String) : BeatmapDifficultyError
deriving DecidableEq

/-- validation.rs BeatmapError. -/
inductive BeatmapError where
  | mismatchedType (ty : String) (field : String) : BeatmapError
  | invalidField (field : String) (value : String) : BeatmapError
  | invalidDifficulty (idx : Nat) (error : BeatmapDifficultyError) : BeatmapError
deriving DecidableEq

/-- validation.rs PlaylistCoverError. -/
inductive PlaylistCoverError where
  | unknownCoverType : PlaylistCoverError
  | invalidCoverPath (ty : String) (path : FsPath) : PlaylistCoverError
  | invalidCoverData (ty : String) : PlaylistCoverError
deriving DecidableEq

/-- validation.rs PlaylistError. Two versions of validation.rs ship in the
repository; playlist.rs requires the one with the InvalidCover variant
(its cover validation propagates a PlaylistCoverError with the from
conversion), which is the version embedded here. -/
inductive PlaylistError where
  | invalidField (field : String) (value : String) : PlaylistError
  | invalidCover (error : PlaylistCoverError) : PlaylistError
  | invalidBeatmap (idx : Nat) (error : BeatmapError) : PlaylistError
deriving DecidableEq

/-- error.rs Error. The zip, json and io payloads are library values,
collapsed to tags. -/
inductive Error where
  | zip : Error
  | json : Error
  | io : Error
  | validation (e : PlaylistError) : Error
deriving DecidableEq

/-- beatmap.rs BeatmapDifficulty::validate. -/
def BeatmapDifficulty.validate (d : BeatmapDifficulty) :
    Except BeatmapDifficultyError Unit :=
  if str_is_empty_or_has_newlines d.name then
    .error (.invalidField "name" d.name)
  else if str_is_empty_or_has_newlines d.characteristic then
    .error (.invalidField "characteristic" d.characteristic)
  else .ok ()

/-- The difficulty loop of beatmap.rs Beatmap::validate: validate each
difficulty in index order, wrapping the first failure with its index. -/
def validateDifficultiesFrom : Nat → List BeatmapDifficulty → Except BeatmapError Unit
  | _, [] => .ok ()
  | idx, d :: rest =>
    match d.validate with
    | .error e => .error (.invalidDifficulty idx e)
    | .ok () => validateDifficultiesFrom (idx + 1) rest

/-- Sequencing of two early-return blocks of a Rust function returning
Result: run the first, stop on its error, otherwise run the second. -/
def eseq {ε : Type} (a b : Except ε Unit) : Except ε Unit :=
  match a with
  | .error e => .error e
  | .ok () => b

/-- The opening match of beatmap.rs Beatmap::validate: the identifier field
named by the type tag must be populated. -/
def Beatmap.checkTy (b : Beatmap) : Except BeatmapError Unit :=
  match b.ty with
  | .key => if b.key.isNone then .error (.mismatchedType "key" "key") else .ok ()
  | .hash => if b.hash.isNone then .error (.mismatchedType "hash" "hash") else .ok ()
  | .levelId =>
    if b.level_id.isNone then .error (.mismatchedType "levelID" "levelID") else .ok ()

/-- The key block of Beatmap::validate: a populated key must be nonempty
hex. -/
def Beatmap.checkKeyField (b : Beatmap) : Except BeatmapError Unit :=
  match b.key with
  | some k =>
    if k.data.isEmpty || !(str_is_hex k) then .error (.invalidField "key" k)
    else .ok ()
  | none => .ok ()

/-- The hash block of Beatmap::validate: a populated hash must have length
40 and be hex. -/
def Beatmap.checkHashField (b : Beatmap) : Except BeatmapError Unit :=
  match b.hash with
  | some h =>
    if !(h.data.length == 40) || !(str_is_hex h) then .error (.invalidField "hash" h)
    else .ok ()
  | none => .ok ()

/-- The levelID block of Beatmap::validate: a populated level id must be a
nonempty single line. -/
def Beatmap.checkLevelIdField (b : Beatmap) : Except BeatmapError Unit :=
  match b.level_id with
  | some li =>
    if str_is_empty_or_has_newlines li then .error (.invalidField "levelID" li)
    else .ok ()
  | none => .ok ()

/-- beatmap.rs Beatmap::validate: the type/identifier presence check, then
the difficulties in index order, then the format of every populated
identifier field (key, then hash, then levelID), with the early returns of
the source expressed by eseq. -/
def Beatmap.validate (b : Beatmap) : Except BeatmapError Unit :=
  eseq b.checkTy
    (eseq (validateDifficultiesFrom 0 b.difficulties)
      (eseq b.checkKeyField
        (eseq b.checkHashField b.checkLevelIdField)))

/-- playlist.rs PlaylistCover::validate. The source unwraps the extension
after the short-circuited path_is_invalid test, which guarantees the
extension exists on the branch where it is read; getD stands in for that
guarded unwrap. -/
def PlaylistCover.validate (fs : FsPath → Bool) (c : PlaylistCover) :
    Except PlaylistCoverError Unit :=
  match c.ty with
  | .png =>
    if path_is_invalid fs c.path || !((c.path.extension).getD "" == "png") then
      .error (.invalidCoverPath "png" c.path)
    else if decide (c.data.length < PNG_MAGIC_NUMBER_LEN) ||
        !(c.data.take PNG_MAGIC_NUMBER_LEN == PNG_MAGIC_NUMBER) then
      .error (.invalidCoverData "png")
    else .ok ()
  | .jpg =>
    if path_is_invalid fs c.path then
      .error (.invalidCoverPath "jpg" c.path)
    else if !((c.path.extension).getD "" == "jpg") &&
        !((c.path.extension).getD "" == "jpeg") then
      .error (.invalidCoverPath "jpg" c.path)
    else if decide (c.data.length < JPG_MAGIC_NUMBER_LEN) ||
        !(c.data.take JPG_MAGIC_NUMBER_LEN == JPG_MAGIC_NUMBER) then
      .error (.invalidCoverData "jpg")
    else .ok ()
  | .unknown => .error .unknownCoverType

/-- The maps loop of playlist.rs Playlist::validate_inner: validate each
beatmap in index order, wrapping the first failure with its index. -/
def validateMapsFrom : Nat → List Beatmap → Except PlaylistError Unit
  | _, [] => .ok ()
  | idx, m :: rest =>
    match m.validate with
    | .error e => .error (.invalidBeatmap idx e)
    | .ok () => validateMapsFrom (idx + 1) rest

/-- The title block of playlist.rs Playlist::validate_inner. -/
def Playlist.checkTitle (p : Playlist) : Except PlaylistError Unit :=
  if str_is_empty_or_has_newlines p.title then .error (.invalidField "title" p.title)
  else .ok ()

/-- The author block of Playlist::validate_inner: a present author must be
a nonempty single line. -/
def Playlist.checkAuthor (p : Playlist) : Except PlaylistError Unit :=
  match p.author with
  | some a =>
    if str_is_empty_or_has_newlines a then .error (.invalidField "author" a)
    else .ok ()
  | none => .ok ()

/-- The description block of Playlist::validate_inner: a present
description must only be nonempty (newlines allowed). -/
def Playlist.checkDescription (p : Playlist) : Except PlaylistError Unit :=
  match p.description with
  | some d => if d.data.isEmpty then .error (.invalidField "description" d) else .ok ()
  | none => .ok ()

/-- The cover block of Playlist::validate_inner: run only when the
validate_cover flag is set and a cover is present, lifting the cover error
with the from conversion. -/
def Playlist.checkCover (fs : FsPath → Bool) (validateCover : Bool)
    (p : Playlist) : Except PlaylistError Unit :=
  if validateCover then
    match p.cover with
    | some c =>
      match c.validate fs with
      | .error e => .error (.invalidCover e)
      | .ok () => .ok ()
    | none => .ok ()
  else .ok ()

/-- playlist.rs Playlist::validate_inner: title, then author, then
description, then (when validate_cover is set) the cover, then the maps in
index order, returning the first failure, with the early returns of the
source expressed by eseq. -/
def Playlist.validate_inner (fs : FsPath → Bool) (validateCover : Bool)
    (p : Playlist) : Except PlaylistError Unit :=
  eseq p.checkTitle
    (eseq p.checkAuthor
      (eseq p.checkDescription
        (eseq (Playlist.checkCover fs validateCover p)
          (validateMapsFrom 0 p.maps))))

/-- playlist.rs Playlist::validate (the public wrapper around
validate_inner(true), lifting the error into Error). -/
def Playlist.validate (fs : FsPath → Bool) (p : Playlist) : Except Error Unit :=
  match p.validate_inner fs true with
  | .error e => .error (.validation e)
  | .ok () => .ok ()

/-- Serialization of optional string-valued fields that serde derives with
skip_serializing_if is_none: absent when none. -/
def optStrField (k : String) : Option String → Jobj
  | none => []
  | some s => [(k, Json.str s)]

/-- Serialization of an Option String field without skip_serializing_if:
null when none, as serde emits for a plain Option. -/
def optJson : Option String → Json
  | none => .null
  | some s => .str s

/-- The serde rename of BeatmapType variants (rename_all camelCase plus the
explicit levelID rename). -/
def BeatmapType.toStr : BeatmapType → String
  | .key => "key"
  | .hash => "hash"
  | .levelId => "levelID"

/-- serde serialization of BeatmapDifficulty. -/
def BeatmapDifficulty.toJson (d : BeatmapDifficulty) : Json :=
  .obj [("name", .str d.name), ("characteristic", .str d.characteristic)]

/-- serde serialization of Beatmap: type, date (null when absent),
difficulties (omitted when empty), key, hash, levelID (null when absent),
customData (omitted when empty). -/
def Beatmap.toJson (m : Beatmap) : Json :=
  .obj ([("type", Json.str m.ty.toStr), ("date", optJson m.date)]
    ++ (if m.difficulties.isEmpty then []
        else [("difficulties", Json.arr (m.difficulties.map BeatmapDifficulty.toJson))])
    ++ [("key", optJson m.key), ("hash", optJson m.hash), ("levelID", optJson m.level_id)]
    ++ (if m.custom_data.isEmpty then [] else [("customData", Json.obj m.custom_data)]))

/-- serde serialization of Playlist: the constant schema URL, title,
author and description when present, the flattened cover (only its path,
under the cover key; data and ty are serde-skipped), maps, and customData
when nonempty. -/
def Playlist.toJson (p : Playlist) : Json :=
  .obj ([("$schema", Json.str SCHEMA), ("title", Json.str p.title)]
    ++ optStrField "author" p.author
    ++ optStrField "description" p.description
    ++ (match p.cover with
        | none => []
        | some c => [("cover", Json.str c.path.render)])
    ++ [("maps", Json.arr (p.maps.map Beatmap.toJson))]
    ++ (if p.custom_data.isEmpty then [] else [("customData", Json.obj p.custom_data)]))

/-- Sequential fallible map, as Rust Iterator::collect into a Result: stop
at the first error. -/
def exMapM (f : α → Except ε β) : List α → Except ε (List β)
  | [] => .ok []
  | x :: xs =>
    match f x with
    | .error e => .error e
    | .ok y =>
      match exMapM f xs with
      | .error e => .error e
      | .ok ys => .ok (y :: ys)

/-- serde deserialization of an Option String field: missing or null gives
none, a string gives some, anything else is a type error. -/
def jOptStr : Option Json → Except Unit (Option String)
  | none => .ok none
  | some .null => .ok none
  | some (.str s) => .ok (some s)
  | some _ => .error ()

/-- serde deserialization of BeatmapDifficulty: both fields required
strings. -/
def BeatmapDifficulty.fromJson : Json → Except Unit BeatmapDifficulty
  | .obj o =>
    match jLookup o "name" with
    | some (.str n) =>
      match jLookup o "characteristic" with
      | some (.str c) => .ok ⟨n, c⟩
      | _ => .error ()
    | _ => .error ()
  | _ => .error ()

/-- serde deserialization of the BeatmapType tag. -/
def BeatmapType.fromStr (s : String) : Except Unit BeatmapType :=
  if s == "key" then .ok .key
  else if s == "hash" then .ok .hash
  else if s == "levelID" then .ok .levelId
  else .error ()

/-- serde deserialization of Beatmap. Unknown keys are ignored;
difficulties and customData default to empty when missing. -/
def Beatmap.fromJson : Json → Except Unit Beatmap
  | .obj o =>
    match jLookup o "type" with
    | some (.str tys) =>
      match BeatmapType.fromStr tys with
      | .error e => .error e
      | .ok ty =>
        match jOptStr (jLookup o "date") with
        | .error e => .error e
        | .ok date =>
          match
            ((match jLookup o "difficulties" with
              | none => .ok []
              | some (.arr xs) => exMapM BeatmapDifficulty.fromJson xs
              | some _ => .error ()) : Except Unit (List BeatmapDifficulty))
          with
          | .error e => .error e
          | .ok diffs =>
            match jOptStr (jLookup o "key") with
            | .error e => .error e
            | .ok key =>
              match jOptStr (jLookup o "hash") with
              | .error e => .error e
              | .ok hash =>
                match jOptStr (jLookup o "levelID") with
                | .error e => .error e
                | .ok lid =>
                  match
                    ((match jLookup o "customData" with
                      | none => .ok ([] : Jobj)
                      | some (.obj m) => .ok m
                      | some _ => .error ()) : Except Unit Jobj)
                  with
                  | .error e => .error e
                  | .ok cd =>
                    .ok { ty := ty, date := date, difficulties := diffs,
                          key := key, hash := hash, level_id := lid,
                          custom_data := cd }
    | _ => .error ()
  | _ => .error ()

/-- serde deserialization of the flattened cover: when the cover key holds
a string, a PlaylistCover with that path, empty data and unknown type (both
serde-skipped fields take their defaults); when the key is absent, no
cover. -/
def coverFromJsonField : Option Json → Except Unit (Option PlaylistCover)
  | none => .ok none
  | some (.str s) => .ok (some { path := FsPath.parse s, data := [], ty := .unknown })
  | some _ => .error ()

/-- serde deserialization of Playlist (the schema key is skip_deserializing
and ignored; unknown keys are ignored; maps is required). -/
def Playlist.fromJson : Json → Except Unit Playlist
  | .obj o =>
    match jLookup o "title" with
    | some (.str title) =>
      match jOptStr (jLookup o "author") with
      | .error e => .error e
      | .ok author =>
        match jOptStr (jLookup o "description") with
        | .error e => .error e
        | .ok description =>
          match coverFromJsonField (jLookup o "cover") with
          | .error e => .error e
          | .ok cover =>
            match
              ((match jLookup o "maps" with
                | some (.arr xs) => exMapM Beatmap.fromJson xs
                | _ => .error ()) : Except Unit (List Beatmap))
            with
            | .error e => .error e
            | .ok maps =>
              match
                ((match jLookup o "customData" with
                  | none => .ok ([] : Jobj)
                  | some (.obj m) => .ok m
                  | some _ => .error ()) : Except Unit Jobj)
              with
              | .error e => .error e
              | .ok cd =>
                .ok { title := title, author := author,
                      description := description, cover := cover,
                      maps := maps, custom_data := cd }
    | _ => .error ()
  | _ => .error ()

/-- An entry of the zip container: the JSON manifest is carried as its
structured value (serde_json::to_writer then from_reader transports the
value unchanged), a binary entry as its bytes. -/
inductive Entry where
  | json (j : Json) : Entry
  | bin (data : List Nat) : Entry

/-- The zip container: named entries in order. -/
abbrev Archive := List (String × Entry)

/-- ZipArchive::by_name. -/
def byName (a : Archive) (n : String) : Option Entry :=
  (a.find? (fun e => e.1 == n)).map (fun e => e.2)

/-- playlist.rs Playlist::write: validate with the cover included, then
emit the playlist.json entry followed by the cover bytes entry when a cover
is present. On a validation failure nothing is produced. -/
def Playlist.write (fs : FsPath → Bool) (p : Playlist) : Except Error Archive :=
  match p.validate_inner fs true with
  | .error e => .error (.validation e)
  | .ok () =>
    .ok (("playlist.json", Entry.json p.toJson) ::
      (match p.cover with
       | some c => [(c.path.render, Entry.bin c.data)]
       | none => []))

/-- playlist.rs Playlist::read. Deserialize the playlist.json entry; when
a cover path came with the manifest, check the path, branch on the
extension, check the magic number read from the head of the cover entry and
append the remaining bytes to the (empty) deserialized data, setting the
type; then run validate_inner(false). A missing entry is a zip error, a
failed read_exact (entry shorter than the magic number) an io error. The
json-entry-as-cover case is a modelling artifact of splitting Entry into
structured and binary payloads and is unreachable. -/
def Playlist.read (fs : FsPath → Bool) (a : Archive) : Except Error Playlist :=
  match byName a "playlist.json" with
  | none => .error .zip
  | some (.bin _) => .error .json
  | some (.json j) =>
    match Playlist.fromJson j with
    | .error _ => .error .json
    | .ok p =>
      let withCover : Except Error Playlist :=
        match p.cover with
        | none => .ok p
        | some c =>
          if !(path_is_invalid fs c.path) then
            let ext := (c.path.extension).getD ""
            if ext == "png" then
              match byName a c.path.render with
              | none => .error .zip
              | some (.json _) => .error .json
              | some (.bin bytes) =>
                if decide (bytes.length < PNG_MAGIC_NUMBER_LEN) then .error .io
                else if !(bytes.take PNG_MAGIC_NUMBER_LEN == PNG_MAGIC_NUMBER) then
                  .error (.validation (.invalidCover (.invalidCoverData "png")))
                else
                  .ok { p with cover := some { c with
                    data := c.data ++ bytes.drop PNG_MAGIC_NUMBER_LEN,
                    ty := .png } }
            else if ext == "jpg" || ext == "jpeg" then
              match byName a c.path.render with
              | none => .error .zip
              | some (.json _) => .error .json
              | some (.bin bytes) =>
                if decide (bytes.length < JPG_MAGIC_NUMBER_LEN) then .error .io
                else if !(bytes.take JPG_MAGIC_NUMBER_LEN == JPG_MAGIC_NUMBER) then
                  .error (.validation (.invalidCover (.invalidCoverData "jpg")))
                else
                  .ok { p with cover := some { c with
                    data := c.data ++ bytes.drop JPG_MAGIC_NUMBER_LEN,
                    ty := .jpg } }
            else .error (.validation (.invalidCover .unknownCoverType))
          else
            .error (.validation (.invalidCover (.invalidCoverPath "unknown" c.path)))
      match withCover with
      | .error e => .error e
      | .ok p2 =>
        match p2.validate_inner fs false with
        | .error e => .error (.validation e)
        | .ok () => .ok p2

/-- playlist.rs Playlist::set_png_cover. The source reads the byte source
to the end (the only fallible step, io-only, infallible on an in-memory
byte list) and then overwrites the three cover fields when a cover exists,
or inserts a fresh cover otherwise. -/
def Playlist.set_png_cover (p : Playlist) (data : List Nat) : Playlist :=
  match p.cover with
  | some _ =>
    { p with cover := some { path := ⟨false, ["cover.png"]⟩, data := data, ty := .png } }
  | none =>
    { p with cover := some { path := ⟨false, ["cover.png"]⟩, data := data, ty := .png } }

/-- playlist.rs Playlist::set_jpg_cover. -/
def Playlist.set_jpg_cover (p : Playlist) (data : List Nat) : Playlist :=
  match p.cover with
  | some _ =>
    { p with cover := some { path := ⟨false, ["cover.jpg"]⟩, data := data, ty := .jpg } }
  | none =>
    { p with cover := some { path := ⟨false, ["cover.jpg"]⟩, data := data, ty := .jpg } }

/-- converter/src/legacy.rs PNG_B64_PREFIX (the data-URI marker for png). -/
def PNG_B64_HEAD : String := "data:image/png;base64,"

/-- converter/src/legacy.rs JPG_B64_PREFIX. -/
def JPG_B64_HEAD : String := "data:image/jpg;base64,"

/-- converter/src/legacy.rs JPEG_B64_PREFIX. -/
def JPEG_B64_HEAD : String := "data:image/jpeg;base64,"

/-- str::starts_with, computed on the character lists. -/
def strStartsWith (s pre : String) : Bool := pre.data.isPrefixOf s.data

/-- The value of a character in the standard base64 alphabet. -/
def b64Val (c : Char) : Option Nat :=
  if decide ('A' ≤ c) && decide (c ≤ 'Z') then some (c.toNat - 'A'.toNat)
  else if decide ('a' ≤ c) && decide (c ≤ 'z') then some (c.toNat - 'a'.toNat + 26)
  else if decide ('0' ≤ c) && decide (c ≤ '9') then some (c.toNat - '0'.toNat + 52)
  else if c == '+' then some 62
  else if c == '/' then some 63
  else none

/-- base64::decode on the standard alphabet with padding (RFC 4648), the
configuration the converter uses: four-character blocks, padding allowed
only in the final block, any other shape or character rejected. -/
def base64Decode : List Char → Except Unit (List Nat)
  | [] => .ok []
  | a :: b :: c :: d :: rest =>
    match b64Val a, b64Val b with
    | some va, some vb =>
      if c == '=' then
        if d == '=' && rest.isEmpty then .ok [va * 4 + vb / 16] else .error ()
      else
        match b64Val c with
        | some vc =>
          if d == '=' then
            if rest.isEmpty then .ok [va * 4 + vb / 16, (vb % 16) * 16 + vc / 4]
            else .error ()
          else
            match b64Val d with
            | some vd =>
              match base64Decode rest with
              | .error e => .error e
              | .ok tl =>
                .ok ((va * 4 + vb / 16) :: ((vb % 16) * 16 + vc / 4)
                     :: ((vc % 4) * 64 + vd) :: tl)
            | none => .error ()
        | none => .error ()
    | _, _ => .error ()
  | _ => .error ()

/-- converter/src/legacy.rs LegacyBeatmap (a legacy song entry). -/
structure LegacyBeatmap where
  key : Option String
  hash : Option String
  date : Option String
  custom_data : Jobj

/-- converter/src/legacy.rs LegacyPlaylist (a legacy document). -/
structure LegacyPlaylist where
  title : String
  author : Option String
  description : Option String
  maps : List LegacyBeatmap
  cover : Option String
  custom_data : Jobj

/-- converter/src/legacy.rs LegacyBeatmap::into_beatmap: the type tag is
inferred by presence (key first, then hash, else levelID); both legacy
identifier fields are carried over as-is, level_id is never set and the
difficulty list is always empty. -/
def LegacyBeatmap.into_beatmap (m : LegacyBeatmap) (preserveCustomData : Bool) :
    Except Unit Beatmap :=
  .ok { ty :=
          if m.key.isSome then .key
          else if m.hash.isSome then .hash
          else .levelId,
        date := m.date,
        difficulties := [],
        key := m.key,
        hash := m.hash,
        level_id := none,
        custom_data := if preserveCustomData then m.custom_data else [] }

/-- The space-skipping loop after a data-URI marker in
LegacyPlaylist::into_playlist, followed by the base64 decode of the rest. -/
def decodeAfterHead (c : String) (head : String) : Except Unit (List Nat) :=
  base64Decode ((c.data.drop head.data.length).dropWhile (fun ch => ch == ' '))

/-- converter/src/legacy.rs LegacyPlaylist::into_playlist: convert every
song, keep or drop the custom data, then attach a cover only when the image
field starts with one of the three data-URI markers (png, then jpg, then
jpeg), decoding the remainder as base64. An image field with no marker is
left alone: no cover, no error. -/
def LegacyPlaylist.into_playlist (l : LegacyPlaylist) (preserveCustomData : Bool) :
    Except Unit Playlist :=
  match exMapM (fun m => m.into_beatmap preserveCustomData) l.maps with
  | .error e => .error e
  | .ok maps =>
    let p : Playlist :=
      { title := l.title, author := l.author, description := l.description,
        cover := none, maps := maps,
        custom_data := if preserveCustomData then l.custom_data else [] }
    match l.cover with
    | none => .ok p
    | some c =>
      if strStartsWith c PNG_B64_HEAD then
        match decodeAfterHead c PNG_B64_HEAD with
        | .error e => .error e
        | .ok data => .ok (p.set_png_cover data)
      else if strStartsWith c JPG_B64_HEAD then
        match decodeAfterHead c JPG_B64_HEAD with
        | .error e => .error e
        | .ok data => .ok (p.set_jpg_cover data)
      else if strStartsWith c JPEG_B64_HEAD then
        match decodeAfterHead c JPEG_B64_HEAD with
        | .error e => .error e
        | .ok data => .ok (p.set_jpg_cover data)
      else .ok p

@[simp]
theorem eseq_ok (b : Except ε Unit) : eseq (.ok ()) b = b := rfl

@[simp]
theorem eseq_error (e : ε) (b : Except ε Unit) : eseq (.error e) b = .error e := rfl

/-- Every path fails path_is_invalid, for every filesystem: a path with no
components has no file name, hence no extension, and a path with at least
one component has a parent option that is some (for a one-component
relative path the parent is the empty path). -/
theorem path_is_invalid_true (fs : FsPath → Bool) (p : FsPath) :
    path_is_invalid fs p = true := by
  rcases p with ⟨abs, comps⟩
  cases comps with
  | nil =>
    simp [path_is_invalid, FsPath.extension, FsPath.fileName]
  | cons c cs =>
    simp [path_is_invalid, FsPath.parentIsSome]

/-- The error that PlaylistCover::validate reports first for each declared
type, given that the path check never passes. -/
def coverFirstError (c : PlaylistCover) : PlaylistCoverError :=
  match c.ty with
  | .png => .invalidCoverPath "png" c.path
  | .jpg => .invalidCoverPath "jpg" c.path
  | .unknown => .unknownCoverType

/-- PlaylistCover::validate always fails: the png and jpg arms trip on the
path check (path_is_invalid holds for every path) and the unknown arm is
unconditionally an error. -/
theorem cover_validate_error (fs : FsPath → Bool) (c : PlaylistCover) :
    c.validate fs = .error (coverFirstError c) := by
  rcases c with ⟨path, data, ty⟩
  cases ty <;>
    simp [PlaylistCover.validate, coverFirstError, path_is_invalid_true]

/-- The cover block errors whenever a cover is present and the flag is
set. -/
theorem checkCover_some (fs : FsPath → Bool) (p : Playlist) (c : PlaylistCover)
    (h : p.cover = some c) :
    Playlist.checkCover fs true p = .error (.invalidCover (coverFirstError c)) := by
  simp [Playlist.checkCover, h, cover_validate_error]

/-- A playlist accepted by validate_inner with the cover flag set has no
cover. -/
theorem validate_inner_ok_cover_none (fs : FsPath → Bool) (p : Playlist)
    (h : p.validate_inner fs true = .ok ()) : p.cover = none := by
  cases hc : p.cover with
  | none => rfl
  | some c =>
    rw [Playlist.validate_inner] at h
    rw [checkCover_some fs p c hc] at h
    cases h1 : p.checkTitle with
    | error e => rw [h1] at h; simp at h
    | ok u =>
      cases u
      rw [h1] at h
      cases h2 : p.checkAuthor with
      | error e => rw [h2] at h; simp at h
      | ok u =>
        cases u
        rw [h2] at h
        cases h3 : p.checkDescription with
        | error e => rw [h3] at h; simp at h
        | ok u => cases u; rw [h3] at h; simp at h

/-- With no cover, validate_inner gives the same verdict whether or not the
cover flag is set. -/
theorem validate_inner_false_eq_true (fs : FsPath → Bool) (p : Playlist)
    (h : p.cover = none) :
    p.validate_inner fs false = p.validate_inner fs true := by
  simp [Playlist.validate_inner, Playlist.checkCover, h]

@[simp]
theorem jOptStr_optJson (o : Option String) : jOptStr (some (optJson o)) = .ok o := by
  cases o <;> rfl

@[simp]
theorem difficulty_fromJson_toJson (d : BeatmapDifficulty) :
    BeatmapDifficulty.fromJson d.toJson = .ok d := by
  rcases d with ⟨n, c⟩
  rfl

@[simp]
theorem exMapM_difficulties (l : List BeatmapDifficulty) :
    exMapM BeatmapDifficulty.fromJson (l.map BeatmapDifficulty.toJson) = .ok l := by
  induction l with
  | nil => rfl
  | cons d ds ih => simp [exMapM, ih]

@[simp]
theorem exMapM_difficulties_cons (d : BeatmapDifficulty) (l : List BeatmapDifficulty) :
    exMapM BeatmapDifficulty.fromJson
      (d.toJson :: l.map BeatmapDifficulty.toJson) = .ok (d :: l) := by
  simp [exMapM]

@[simp]
theorem beatmap_fromJson_toJson (m : Beatmap) :
    Beatmap.fromJson m.toJson = .ok m := by
  rcases m with ⟨ty, date, diffs, key, hash, lid, cd⟩
  cases ty <;> cases diffs <;> cases cd <;>
    simp [Beatmap.toJson, Beatmap.fromJson, BeatmapType.toStr,
      BeatmapType.fromStr, jLookup]

@[simp]
theorem exMapM_beatmaps (l : List Beatmap) :
    exMapM Beatmap.fromJson (l.map Beatmap.toJson) = .ok l := by
  induction l with
  | nil => rfl
  | cons m ms ih => simp [exMapM, ih]

/-- Serializing a playlist without a cover and deserializing the result
recovers the playlist exactly. -/
theorem playlist_fromJson_toJson (p : Playlist) (h : p.cover = none) :
    Playlist.fromJson p.toJson = .ok p := by
  rcases p with ⟨title, author, description, cover, maps, cd⟩
  cases h
  cases author <;> cases description <;> cases cd <;>
    simp [Playlist.toJson, Playlist.fromJson, jLookup, optStrField,
      coverFromJsonField, jOptStr]

/-- The difficulty loop reports the index (relative to its starting point)
and nested error of the first invalid difficulty. -/
theorem validateDifficultiesFrom_firstErr (pre : List BeatmapDifficulty)
    (d : BeatmapDifficulty) (post : List BeatmapDifficulty)
    (e : BeatmapDifficultyError) (n : Nat)
    (hpre : ∀ x ∈ pre, x.validate = .ok ()) (hd : d.validate = .error e) :
    validateDifficultiesFrom n (pre ++ d :: post)
      = .error (.invalidDifficulty (n + pre.length) e) := by
  induction pre generalizing n with
  | nil => simp [validateDifficultiesFrom, hd]
  | cons x xs ih =>
    have hx : x.validate = .ok () := hpre x (List.mem_cons_self x xs)
    have hxs : ∀ y ∈ xs, y.validate = .ok () :=
      fun y hy => hpre y (List.mem_cons_of_mem x hy)
    simp only [List.cons_append, validateDifficultiesFrom, hx, List.append_eq]
    rw [ih _ hxs]
    simp [Nat.add_comm, Nat.add_assoc, Nat.add_left_comm]

/-- The difficulty loop accepts exactly the lists whose members all
validate. -/
theorem validateDifficultiesFrom_ok (l : List BeatmapDifficulty) (n : Nat)
    (h : ∀ x ∈ l, x.validate = .ok ()) :
    validateDifficultiesFrom n l = .ok () := by
  induction l generalizing n with
  | nil => rfl
  | cons x xs ih =>
    have hx : x.validate = .ok () := h x (List.mem_cons_self x xs)
    simp only [validateDifficultiesFrom, hx]
    exact ih _ (fun y hy => h y (List.mem_cons_of_mem x hy))

/-- The maps loop reports the index (relative to its starting point) and
nested error of the first invalid beatmap. -/
theorem validateMapsFrom_firstErr (pre : List Beatmap) (m : Beatmap)
    (post : List Beatmap) (e : BeatmapError) (n : Nat)
    (hpre : ∀ x ∈ pre, x.validate = .ok ()) (hm : m.validate = .error e) :
    validateMapsFrom n (pre ++ m :: post)
      = .error (.invalidBeatmap (n + pre.length) e) := by
  induction pre generalizing n with
  | nil => simp [validateMapsFrom, hm]
  | cons x xs ih =>
    have hx : x.validate = .ok () := hpre x (List.mem_cons_self x xs)
    have hxs : ∀ y ∈ xs, y.validate = .ok () :=
      fun y hy => hpre y (List.mem_cons_of_mem x hy)
    simp only [List.cons_append, validateMapsFrom, hx, List.append_eq]
    rw [ih _ hxs]
    simp [Nat.add_comm, Nat.add_assoc, Nat.add_left_comm]

/-- C1: for every Playlist accepted by validate, writing it to a container
and reading the container back returns Ok with a Playlist structurally
equal to the original, every field matching exactly (cover bytes and custom
data included). -/
theorem c1_write_read_roundtrip (fs : FsPath → Bool) (p : Playlist)
    (h : p.validate fs = .ok ()) :
    ∃ a, Playlist.write fs p = .ok a ∧ Playlist.read fs a = .ok p := by
  have hv : p.validate_inner fs true = .ok () := by
    unfold Playlist.validate at h
    cases hvi : p.validate_inner fs true with
    | error e => rw [hvi] at h; simp at h
    | ok u => cases u; rfl
  have hcov : p.cover = none := validate_inner_ok_cover_none fs p hv
  refine ⟨[("playlist.json", Entry.json p.toJson)], ?_, ?_⟩
  · unfold Playlist.write
    rw [hv, hcov]
  · unfold Playlist.read
    simp only [byName, List.find?_cons_of_pos, beq_self_eq_true, Option.map_some, Option.map]
    rw [playlist_fromJson_toJson p hcov]
    simp only [hcov, validate_inner_false_eq_true fs p hcov, hv]

/-- The concrete playlist of the roundtrip witness: three beatmaps, each
addressed by a different scheme, one difficulty, and custom data at the
playlist level. -/
def roundtripExample : Playlist :=
  { title := "playlist", author := some "author",
    description := some "description", cover := none,
    maps :=
      [{ ty := .key, date := some "2020-05-23T17:00:00Z",
         difficulties := [⟨"Expert+", "normal"⟩], key := some "16af",
         hash := none, level_id := none, custom_data := [] },
       { ty := .hash, date := none, difficulties := [], key := none,
         hash := some "0123456789abcdef0123456789abcdef01234567",
         level_id := none, custom_data := [] },
       { ty := .levelId, date := none, difficulties := [], key := none,
         hash := none, level_id := some "level ID", custom_data := [] }],
    custom_data := [("key", .str "value")] }

theorem c1_write_read_roundtrip_witness :
    ∃ a, Playlist.write (fun _ => false) roundtripExample = .ok a ∧
      Playlist.read (fun _ => false) a = .ok roundtripExample :=
  c1_write_read_roundtrip (fun _ => false) roundtripExample (by rfl)

/-- C9: the codec validates on both ends. Writing an invalid model returns
its validation error and produces no archive, and any playlist that read
returns passes full validation, so a malformed or invalid archive is never
returned as a valid Playlist. -/
theorem c9_codec_validates_both_ways :
    (∀ (fs : FsPath → Bool) (p : Playlist) (e : PlaylistError),
      p.validate_inner fs true = .error e →
        Playlist.write fs p = .error (.validation e)) ∧
    (∀ (fs : FsPath → Bool) (a : Archive) (p : Playlist),
      Playlist.read fs a = .ok p → p.validate fs = .ok ()) := by
  constructor
  · intro fs p e h
    unfold Playlist.write
    rw [h]
  · intro fs a p h
    unfold Playlist.read at h
    cases hb : byName a "playlist.json" with
    | none => rw [hb] at h; simp at h
    | some entry =>
      rw [hb] at h
      cases entry with
      | bin d => simp at h
      | json j =>
        dsimp only at h
        cases hj : Playlist.fromJson j with
        | error e2 => rw [hj] at h; simp at h
        | ok p1 =>
          rw [hj] at h
          dsimp only at h
          cases hc : p1.cover with
          | some c =>
            simp only [hc, path_is_invalid_true, Bool.not_true] at h
            simp at h
          | none =>
            simp only [hc] at h
            cases hvi : p1.validate_inner fs false with
            | error e3 => rw [hvi] at h; simp at h
            | ok u =>
              cases u
              rw [hvi] at h
              simp only [Except.ok.injEq] at h
              subst h
              rw [validate_inner_false_eq_true fs p1 hc] at hvi
              unfold Playlist.validate
              rw [hvi]

/-- A playlist whose title is empty, hence rejected. -/
def emptyTitlePlaylist : Playlist :=
  { title := "", author := none, description := none, cover := none,
    maps := [], custom_data := [] }

theorem c9_codec_validates_both_ways_witness :
    Playlist.write (fun _ => false) emptyTitlePlaylist
      = .error (.validation (.invalidField "title" "")) ∧
    Playlist.validate (fun _ => false) roundtripExample = .ok () :=
  ⟨c9_codec_validates_both_ways.1 (fun _ => false) emptyTitlePlaylist
      (.invalidField "title" "") (by rfl),
   c9_codec_validates_both_ways.2 (fun _ => false)
      [("playlist.json", Entry.json roundtripExample.toJson)]
      roundtripExample (by rfl)⟩

/-- The cover path the library itself uses for png covers. -/
def coverPngPath : FsPath := ⟨false, ["cover.png"]⟩

/-- The nested cover path of the path-safety test case. -/
def subdirJpgPath : FsPath := ⟨false, ["subdirectory", "cover.jpg"]⟩

/-- A cover whose bytes begin with the full 8-byte PNG signature, declared
png, at the canonical path. -/
def pngSignatureCover : PlaylistCover :=
  ⟨coverPngPath, PNG_MAGIC_NUMBER ++ [0, 1, 2, 3], .png⟩

/-- C2: evaluation of PlaylistCover::validate at the four test vectors of
the claim, on a filesystem where every path exists as a file. The last
three cases fail as the claim states. The first case is the divergence: the
claim expects the well-formed PNG cover (path cover.png, kind PNG, data
beginning with the PNG signature) to pass, but the code rejects it with an
invalid-path error, because path_is_invalid holds for every path: a
one-component relative path has a parent (the empty path), so the
disjunct on parent being some is true, and the disjunct on is_file failing
adds a filesystem-existence demand. The kind-JPEG and truncated-data cases
also fail through the path check rather than the signature check. -/
theorem c2_cover_validation_behavior :
    PlaylistCover.validate (fun _ => true) pngSignatureCover
      = .error (.invalidCoverPath "png" coverPngPath) ∧
    PlaylistCover.validate (fun _ => true) { pngSignatureCover with ty := .jpg }
      = .error (.invalidCoverPath "jpg" coverPngPath) ∧
    PlaylistCover.validate (fun _ => true) { pngSignatureCover with data := [0x89] }
      = .error (.invalidCoverPath "png" coverPngPath) ∧
    PlaylistCover.validate (fun _ => true)
      ⟨subdirJpgPath, PNG_MAGIC_NUMBER ++ [0, 1, 2, 3], .jpg⟩
      = .error (.invalidCoverPath "jpg" subdirJpgPath) :=
  ⟨rfl, rfl, rfl, rfl⟩

/-- A playlist that is valid except that it carries the well-formed PNG
cover. -/
def validCoverPlaylist : Playlist :=
  { title := "playlist", author := none, description := none,
    cover := some pngSignatureCover, maps := [], custom_data := [] }

/-- C3 counterexample: the write path does run the path check, existence
test included, and fails it. For the playlist whose cover path is the
single relative filename cover.png with a recognized extension and
signature-correct bytes, write-path validation reports an invalid cover
path both when the named file does not exist on the local filesystem and
when it does, refuting that write-path validation succeeds on the path
check. -/
theorem c3_counterexample :
    Playlist.write (fun _ => false) validCoverPlaylist
      = .error (.validation (.invalidCover (.invalidCoverPath "png" coverPngPath))) ∧
    Playlist.write (fun _ => true) validCoverPlaylist
      = .error (.validation (.invalidCover (.invalidCoverPath "png" coverPngPath))) :=
  ⟨rfl, rfl⟩

/-- C3 (amended): the path check, its filesystem-existence test included,
runs on the write path as well, through Playlist::write, validate_inner and
PlaylistCover::validate; and because path_is_invalid rejects every path the
check never passes there, so writing any playlist carrying a cover fails
with a validation error whether or not the named file exists. -/
theorem c3_write_path_runs_path_check :
    (∀ (fs : FsPath → Bool) (c : PlaylistCover),
      c.validate fs = .error (coverFirstError c)) ∧
    (∀ (fs : FsPath → Bool) (p : Playlist) (c : PlaylistCover),
      p.cover = some c → ∃ e, Playlist.write fs p = .error (.validation e)) := by
  constructor
  · exact cover_validate_error
  · intro fs p c hc
    cases hv : p.validate_inner fs true with
    | error e =>
      exact ⟨e, by unfold Playlist.write; rw [hv]⟩
    | ok u =>
      cases u
      have := validate_inner_ok_cover_none fs p hv
      rw [hc] at this
      simp at this

theorem c3_write_path_runs_path_check_witness :
    ∃ e, Playlist.write (fun _ => false)
      { title := "t", author := none, description := none,
        cover := some ⟨⟨false, ["c.jpg"]⟩, [], .jpg⟩,
        maps := [], custom_data := [] }
      = .error (.validation e) :=
  c3_write_path_runs_path_check.2 (fun _ => false) _
    ⟨⟨false, ["c.jpg"]⟩, [], .jpg⟩ rfl

/-- A minimal otherwise-valid playlist used as the receiver of the cover
setters. -/
def plainPlaylist : Playlist :=
  { title := "t", author := none, description := none, cover := none,
    maps := [], custom_data := [] }

/-- C10: set_png_cover and set_jpg_cover succeed for every playlist and
every byte source, setting the path to cover.png respectively cover.jpg and
the kind to png respectively jpg without inspecting the bytes, replacing
any existing cover; a playlist can therefore hold a cover whose bytes do
not match the declared kind, flagged only when validate runs (here: the
JPEG signature stored under a png cover is rejected by validate). -/
theorem c10_set_cover_unconditional :
    (∀ (p : Playlist) (data : List Nat),
      (p.set_png_cover data).cover = some ⟨⟨false, ["cover.png"]⟩, data, .png⟩) ∧
    (∀ (p : Playlist) (data : List Nat),
      (p.set_jpg_cover data).cover = some ⟨⟨false, ["cover.jpg"]⟩, data, .jpg⟩) ∧
    (plainPlaylist.set_png_cover JPG_MAGIC_NUMBER).cover
      = some ⟨⟨false, ["cover.png"]⟩, JPG_MAGIC_NUMBER, .png⟩ ∧
    Playlist.validate (fun _ => true) (plainPlaylist.set_png_cover JPG_MAGIC_NUMBER)
      = .error (.validation (.invalidCover
          (.invalidCoverPath "png" ⟨false, ["cover.png"]⟩))) := by
  refine ⟨?_, ?_, rfl, rfl⟩
  · intro p data
    cases hc : p.cover <;> simp [Playlist.set_png_cover, hc]
  · intro p data
    cases hc : p.cover <;> simp [Playlist.set_jpg_cover, hc]

/-- eseq of early-return blocks succeeds exactly when both blocks do. -/
theorem eseq_ok_iff (a b : Except ε Unit) :
    eseq a b = .ok () ↔ a = .ok () ∧ b = .ok () := by
  cases a with
  | error e => simp [eseq]
  | ok u => cases u; simp [eseq]

/-- A beatmap populated only with a hash identifier. -/
def hashOnlyBeatmap (h : String) : Beatmap :=
  { ty := .hash, date := none, difficulties := [], key := none,
    hash := some h, level_id := none, custom_data := [] }

/-- C4: a track with a populated hash passes validation only if the hash is
exactly 40 characters of ASCII hex; the 40-hex example passes, deadbeef is
rejected for its length and the zz-led string for its non-hex characters,
both with an invalid-field error naming hash and the offending value. -/
theorem c4_hash_format :
    (∀ (b : Beatmap) (h : String), b.hash = some h →
      b.validate = .ok () → h.data.length = 40 ∧ str_is_hex h = true) ∧
    Beatmap.validate (hashOnlyBeatmap "0123456789abcdef0123456789abcdef01234567")
      = .ok () ∧
    Beatmap.validate (hashOnlyBeatmap "deadbeef")
      = .error (.invalidField "hash" "deadbeef") ∧
    Beatmap.validate (hashOnlyBeatmap "zz23456789abcdef0123456789abcdef01234567")
      = .error (.invalidField "hash" "zz23456789abcdef0123456789abcdef01234567") := by
  refine ⟨?_, by rfl, by rfl, by rfl⟩
  intro b h hh hok
  rw [Beatmap.validate, eseq_ok_iff, eseq_ok_iff, eseq_ok_iff, eseq_ok_iff] at hok
  obtain ⟨-, -, -, h4, -⟩ := hok
  rw [Beatmap.checkHashField, hh] at h4
  dsimp only at h4
  split at h4
  · simp at h4
  · rename_i hcond
    simpa using hcond

theorem c4_hash_format_witness :
    ("0123456789abcdef0123456789abcdef01234567" : String).data.length = 40 ∧
      str_is_hex "0123456789abcdef0123456789abcdef01234567" = true :=
  c4_hash_format.1 (hashOnlyBeatmap "0123456789abcdef0123456789abcdef01234567")
    "0123456789abcdef0123456789abcdef01234567" rfl (by rfl)

/-- A track declared by key, with a well-formed key and a populated non-hex
hash. -/
def mixedKeyBadHashBeatmap : Beatmap :=
  { ty := .key, date := none, difficulties := [], key := some "16af",
    hash := some "zz23456789abcdef0123456789abcdef01234567",
    level_id := none, custom_data := [] }

/-- C5 counterexample: a track with reference kind key, the valid nonempty
hex key 16af, and a populated non-hex hash is rejected by validate with an
invalid-field error on hash, refuting that the non-matching identifier
fields are informational only and never re-validated. -/
theorem c5_counterexample :
    Beatmap.validate mixedKeyBadHashBeatmap
      = .error (.invalidField "hash" "zz23456789abcdef0123456789abcdef01234567") :=
  rfl

/-- C5 (amended): track validation checks the presence of the identifier
named by the reference kind but then format-checks every populated
identifier field; a ByKey track with a well-formed key, valid difficulties
and a populated malformed hash fails validate with an invalid-field error
on hash. -/
theorem c5_all_populated_ids_checked (b : Beatmap) (k h : String)
    (hty : b.ty = .key) (hk : b.key = some k)
    (hkok : (k.data.isEmpty || !(str_is_hex k)) = false)
    (hdiff : validateDifficultiesFrom 0 b.difficulties = .ok ())
    (hh : b.hash = some h)
    (hbad : (!(h.data.length == 40) || !(str_is_hex h)) = true) :
    b.validate = .error (.invalidField "hash" h) := by
  have h1 : b.checkTy = .ok () := by simp [Beatmap.checkTy, hty, hk]
  have h2 : b.checkKeyField = .ok () := by simp [Beatmap.checkKeyField, hk, hkok]
  have h3 : b.checkHashField = .error (.invalidField "hash" h) := by
    rw [Beatmap.checkHashField, hh]
    dsimp only
    rw [if_pos hbad]
  rw [Beatmap.validate, h1, eseq_ok, hdiff, eseq_ok, h2, eseq_ok, h3, eseq_error]

theorem c5_all_populated_ids_checked_witness :
    Beatmap.validate
      { ty := .key, date := none, difficulties := [], key := some "16af",
        hash := some "beef", level_id := none, custom_data := [] }
      = .error (.invalidField "hash" "beef") :=
  c5_all_populated_ids_checked _ "16af" "beef" rfl rfl (by rfl) (by rfl) rfl (by rfl)

/-- A legacy document whose image field is bare base64 of the PNG signature
bytes, with no data-URI marker. -/
def bareBase64Legacy : LegacyPlaylist :=
  { title := "t", author := none, description := none, maps := [],
    cover := some "iVBORw0KGgo=", custom_data := [] }

/-- C6 counterexample: the image field is base64 of exactly the PNG
signature bytes (certified by the first conjunct), yet conversion attaches
no cover and reports no error: the adapter never decodes or sniffs a bare
base64 image field, refuting that such a field yields a cover classified as
PNG. -/
theorem c6_counterexample :
    base64Decode ("iVBORw0KGgo=").data = .ok PNG_MAGIC_NUMBER ∧
    LegacyPlaylist.into_playlist bareBase64Legacy true
      = .ok { title := "t", author := none, description := none, cover := none,
              maps := [], custom_data := [] } :=
  ⟨rfl, rfl⟩

/-- Converting legacy songs never fails: into_beatmap always returns Ok. -/
theorem exMapM_into_beatmap_ok (pcd : Bool) (l : List LegacyBeatmap) :
    ∃ ms, exMapM (fun m => m.into_beatmap pcd) l = .ok ms := by
  induction l with
  | nil => exact ⟨[], rfl⟩
  | cons x xs ih =>
    obtain ⟨ms, hms⟩ := ih
    cases hfx : LegacyBeatmap.into_beatmap x pcd with
    | error e =>
      rw [LegacyBeatmap.into_beatmap] at hfx
      simp at hfx
    | ok y =>
      refine ⟨y :: ms, ?_⟩
      rw [exMapM, hfx]
      dsimp only
      rw [hms]

/-- C6 (amended): the legacy adapter attaches a cover only when the image
field starts with one of the three data-URI markers; any other image field
(bare base64 of PNG bytes or arbitrary bytes alike) is never decoded or
sniffed, and conversion succeeds with no cover attached. -/
theorem c6_no_marker_no_cover (l : LegacyPlaylist) (pcd : Bool) (c : String)
    (hc : l.cover = some c)
    (h1 : strStartsWith c PNG_B64_HEAD = false)
    (h2 : strStartsWith c JPG_B64_HEAD = false)
    (h3 : strStartsWith c JPEG_B64_HEAD = false) :
    ∃ p, LegacyPlaylist.into_playlist l pcd = .ok p ∧ p.cover = none := by
  obtain ⟨ms, hms⟩ := exMapM_into_beatmap_ok pcd l.maps
  refine ⟨{ title := l.title, author := l.author, description := l.description,
            cover := none, maps := ms,
            custom_data := if pcd then l.custom_data else [] }, ?_, rfl⟩
  unfold LegacyPlaylist.into_playlist
  rw [hms]
  dsimp only
  rw [hc]
  simp [h1, h2, h3]

theorem c6_no_marker_no_cover_witness :
    ∃ p, LegacyPlaylist.into_playlist
      { title := "w", author := none, description := none, maps := [],
        cover := some "AAAA", custom_data := [] } false = .ok p ∧ p.cover = none :=
  c6_no_marker_no_cover _ false "AAAA" rfl (by rfl) (by rfl) (by rfl)

/-- C7: legacy track type inference by presence: hash only gives a ByHash
track, key only a ByKey track, neither a ByLevelId track with level_id left
absent; and every converted legacy track has empty difficulties and no
level id. -/
theorem c7_legacy_type_inference (pcd : Bool) (m : LegacyBeatmap) :
    (∀ h, m.key = none → m.hash = some h →
      ∃ b, m.into_beatmap pcd = .ok b ∧ b.ty = .hash ∧ b.hash = some h
        ∧ b.difficulties = []) ∧
    (∀ k, m.key = some k → m.hash = none →
      ∃ b, m.into_beatmap pcd = .ok b ∧ b.ty = .key ∧ b.key = some k
        ∧ b.difficulties = []) ∧
    (m.key = none → m.hash = none →
      ∃ b, m.into_beatmap pcd = .ok b ∧ b.ty = .levelId ∧ b.level_id = none
        ∧ b.difficulties = []) ∧
    (∀ b, m.into_beatmap pcd = .ok b → b.difficulties = [] ∧ b.level_id = none) := by
  refine ⟨?_, ?_, ?_, ?_⟩
  · intro h hk hh
    refine ⟨_, rfl, ?_, hh, rfl⟩
    simp [hk, hh]
  · intro k hk hh
    refine ⟨_, rfl, ?_, hk, rfl⟩
    simp [hk]
  · intro hk hh
    refine ⟨_, rfl, ?_, rfl, rfl⟩
    simp [hk, hh]
  · intro b hb
    rw [LegacyBeatmap.into_beatmap] at hb
    simp only [Except.ok.injEq] at hb
    subst hb
    exact ⟨rfl, rfl⟩

theorem c7_legacy_type_inference_witness :
    (∃ b, LegacyBeatmap.into_beatmap ⟨none, some "beef", none, []⟩ true = .ok b
      ∧ b.ty = .hash ∧ b.hash = some "beef" ∧ b.difficulties = []) ∧
    (∃ b, LegacyBeatmap.into_beatmap ⟨some "16af", none, none, []⟩ true = .ok b
      ∧ b.ty = .key ∧ b.key = some "16af" ∧ b.difficulties = []) ∧
    (∃ b, LegacyBeatmap.into_beatmap ⟨none, none, none, []⟩ true = .ok b
      ∧ b.ty = .levelId ∧ b.level_id = none ∧ b.difficulties = []) :=
  ⟨(c7_legacy_type_inference true _).1 "beef" rfl rfl,
   (c7_legacy_type_inference true _).2.1 "16af" rfl rfl,
   (c7_legacy_type_inference true _).2.2.1 rfl rfl⟩

/-- C8: validation fails fast and in order. At the playlist level the first
error wins in the order title, author, description, cover, maps by index;
at the track level type/identifier consistency comes first, then the
difficulties by index, then the identifier field formats (key, hash,
levelID); and every error carries the failing field name with the offending
value, or the failing index with the nested error. -/
theorem c8_first_error_order :
    (∀ (fs : FsPath → Bool) (p : Playlist),
      str_is_empty_or_has_newlines p.title = true →
        p.validate_inner fs true = .error (.invalidField "title" p.title)) ∧
    (∀ (fs : FsPath → Bool) (p : Playlist) (a : String),
      str_is_empty_or_has_newlines p.title = false → p.author = some a →
        str_is_empty_or_has_newlines a = true →
        p.validate_inner fs true = .error (.invalidField "author" a)) ∧
    (∀ (fs : FsPath → Bool) (p : Playlist) (d : String),
      p.checkTitle = .ok () → p.checkAuthor = .ok () →
        p.description = some d → d.data.isEmpty = true →
        p.validate_inner fs true = .error (.invalidField "description" d)) ∧
    (∀ (fs : FsPath → Bool) (p : Playlist) (c : PlaylistCover)
        (e : PlaylistCoverError),
      p.checkTitle = .ok () → p.checkAuthor = .ok () →
        p.checkDescription = .ok () → p.cover = some c →
        c.validate fs = .error e →
        p.validate_inner fs true = .error (.invalidCover e)) ∧
    (∀ (fs : FsPath → Bool) (p : Playlist) (pre : List Beatmap) (m : Beatmap)
        (post : List Beatmap) (e : BeatmapError),
      p.checkTitle = .ok () → p.checkAuthor = .ok () →
        p.checkDescription = .ok () → Playlist.checkCover fs true p = .ok () →
        p.maps = pre ++ m :: post → (∀ x ∈ pre, x.validate = .ok ()) →
        m.validate = .error e →
        p.validate_inner fs true = .error (.invalidBeatmap pre.length e)) ∧
    (∀ b : Beatmap, b.ty = .key → b.key = none →
      b.validate = .error (.mismatchedType "key" "key")) ∧
    (∀ b : Beatmap, b.ty = .hash → b.hash = none →
      b.validate = .error (.mismatchedType "hash" "hash")) ∧
    (∀ b : Beatmap, b.ty = .levelId → b.level_id = none →
      b.validate = .error (.mismatchedType "levelID" "levelID")) ∧
    (∀ (b : Beatmap) (pre : List BeatmapDifficulty) (d : BeatmapDifficulty)
        (post : List BeatmapDifficulty) (e : BeatmapDifficultyError),
      b.checkTy = .ok () → b.difficulties = pre ++ d :: post →
        (∀ x ∈ pre, x.validate = .ok ()) → d.validate = .error e →
        b.validate = .error (.invalidDifficulty pre.length e)) ∧
    (∀ (b : Beatmap) (k : String),
      b.checkTy = .ok () → validateDifficultiesFrom 0 b.difficulties = .ok () →
        b.key = some k → (k.data.isEmpty || !(str_is_hex k)) = true →
        b.validate = .error (.invalidField "key" k)) ∧
    (∀ (b : Beatmap) (h : String),
      b.checkTy = .ok () → validateDifficultiesFrom 0 b.difficulties = .ok () →
        b.checkKeyField = .ok () → b.hash = some h →
        (!(h.data.length == 40) || !(str_is_hex h)) = true →
        b.validate = .error (.invalidField "hash" h)) ∧
    (∀ (b : Beatmap) (li : String),
      b.checkTy = .ok () → validateDifficultiesFrom 0 b.difficulties = .ok () →
        b.checkKeyField = .ok () → b.checkHashField = .ok () →
        b.level_id = some li → str_is_empty_or_has_newlines li = true →
        b.validate = .error (.invalidField "levelID" li)) := by
  refine ⟨?_, ?_, ?_, ?_, ?_, ?_, ?_, ?_, ?_, ?_, ?_, ?_⟩
  · intro fs p ht
    have h1 : p.checkTitle = .error (.invalidField "title" p.title) := by
      simp [Playlist.checkTitle, ht]
    rw [Playlist.validate_inner, h1, eseq_error]
  · intro fs p a ht ha hbad
    have h1 : p.checkTitle = .ok () := by simp [Playlist.checkTitle, ht]
    have h2 : p.checkAuthor = .error (.invalidField "author" a) := by
      simp [Playlist.checkAuthor, ha, hbad]
    rw [Playlist.validate_inner, h1, eseq_ok, h2, eseq_error]
  · intro fs p d h1 h2 hd hbad
    have h3 : p.checkDescription = .error (.invalidField "description" d) := by
      simp [Playlist.checkDescription, hd, hbad]
    rw [Playlist.validate_inner, h1, eseq_ok, h2, eseq_ok, h3, eseq_error]
  · intro fs p c e h1 h2 h3 hc he
    have h4 : Playlist.checkCover fs true p = .error (.invalidCover e) := by
      simp [Playlist.checkCover, hc, he]
    rw [Playlist.validate_inner, h1, eseq_ok, h2, eseq_ok, h3, eseq_ok, h4,
      eseq_error]
  · intro fs p pre m post e h1 h2 h3 h4 hmaps hpre hm
    rw [Playlist.validate_inner, h1, eseq_ok, h2, eseq_ok, h3, eseq_ok, h4,
      eseq_ok, hmaps, validateMapsFrom_firstErr pre m post e 0 hpre hm,
      Nat.zero_add]
  · intro b hty hk
    have h1 : b.checkTy = .error (.mismatchedType "key" "key") := by
      simp [Beatmap.checkTy, hty, hk]
    rw [Beatmap.validate, h1, eseq_error]
  · intro b hty hh
    have h1 : b.checkTy = .error (.mismatchedType "hash" "hash") := by
      simp [Beatmap.checkTy, hty, hh]
    rw [Beatmap.validate, h1, eseq_error]
  · intro b hty hli
    have h1 : b.checkTy = .error (.mismatchedType "levelID" "levelID") := by
      simp [Beatmap.checkTy, hty, hli]
    rw [Beatmap.validate, h1, eseq_error]
  · intro b pre d post e h1 hdiffs hpre hd
    rw [Beatmap.validate, h1, eseq_ok, hdiffs,
      validateDifficultiesFrom_firstErr pre d post e 0 hpre hd,
      Nat.zero_add, eseq_error]
  · intro b k h1 h2 hk hbad
    have h3 : b.checkKeyField = .error (.invalidField "key" k) := by
      rw [Beatmap.checkKeyField, hk]
      dsimp only
      rw [if_pos hbad]
    rw [Beatmap.validate, h1, eseq_ok, h2, eseq_ok, h3, eseq_error]
  · intro b h h1 h2 h3 hh hbad
    have h4 : b.checkHashField = .error (.invalidField "hash" h) := by
      rw [Beatmap.checkHashField, hh]
      dsimp only
      rw [if_pos hbad]
    rw [Beatmap.validate, h1, eseq_ok, h2, eseq_ok, h3, eseq_ok, h4, eseq_error]
  · intro b li h1 h2 h3 h4 hli hbad
    have h5 : b.checkLevelIdField = .error (.invalidField "levelID" li) := by
      simp [Beatmap.checkLevelIdField, hli, hbad]
    rw [Beatmap.validate, h1, eseq_ok, h2, eseq_ok, h3, eseq_ok, h4, eseq_ok, h5]

/-- A playlist carrying an author error together with later description,
cover and track errors: fail-fast order must report the author. -/
def orderWitnessPlaylist : Playlist :=
  { title := "t", author := some "a\nb", description := some "",
    cover := some ⟨⟨false, ["c"]⟩, [], .unknown⟩,
    maps := [hashOnlyBeatmap "deadbeef"], custom_data := [] }

theorem c8_first_error_order_witness :
    Playlist.validate_inner (fun _ => false) true orderWitnessPlaylist
      = .error (.invalidField "author" "a\nb") :=
  c8_first_error_order.2.1 (fun _ => false) orderWitnessPlaylist "a\nb"
    (by rfl) rfl (by rfl)
